import Mathlib

/-!
Shallow embedding of the collaborative task-management engine:
the Express route handlers of `server/routes/tasks.js` (task CRUD,
collaborator grants, user search) and the client-side reconciler
handlers of `src/contexts/TaskContext.tsx`.

External library behaviour that the routes consume opaquely is passed
in as parameters: `pio` models `new Date` / express-validator's
`isISO8601` (a string parses iff `pio` returns `some`), `ie` models
express-validator's `isEmail`.  Database-generated values (serial ids,
`NOW()`) are passed as explicit `freshId` / `now` arguments.
-/

namespace TaskFlow

/-- Collaborator permission: the `'read' | 'write'` enum of `task_collaborators.permission`. -/
inductive Perm where
  | read
  | write
deriving DecidableEq

/-- Task status enum `'pending' | 'in_progress' | 'completed'`. -/
inductive Status where
  | pending
  | in_progress
  | completed
deriving DecidableEq

/-- Task priority enum `'low' | 'medium' | 'high'`. -/
inductive Priority where
  | low
  | medium
  | high
deriving DecidableEq

/-- `isIn(['pending','in_progress','completed'])` plus parsing into the enum. -/
def parseStatus : String → Option Status
  | "pending" => some .pending
  | "in_progress" => some .in_progress
  | "completed" => some .completed
  | _ => none

/-- `isIn(['low','medium','high'])` plus parsing into the enum. -/
def parsePriority : String → Option Priority
  | "low" => some .low
  | "medium" => some .medium
  | "high" => some .high
  | _ => none

/-- `isIn(['read','write'])` plus parsing into the enum. -/
def parsePerm : String → Option Perm
  | "read" => some .read
  | "write" => some .write
  | _ => none

/-- A row of the `profiles` table. -/
structure Profile where
  id : Nat
  email : String
  name : String
  avatar_url : String
deriving DecidableEq

/-- A row of the `tasks` table. -/
structure Task where
  id : Nat
  title : String
  description : String
  status : Status
  priority : Priority
  due_date : Option Nat
  created_by : Nat
  created_at : Nat
  updated_at : Nat
deriving DecidableEq

/-- A row of the `task_collaborators` table. -/
structure Collab where
  id : Nat
  task_id : Nat
  user_id : Nat
  permission : Perm
deriving DecidableEq

/-- The backing store's state: the three tables the routes touch. -/
structure DB where
  profiles : List Profile
  tasks : List Task
  collabs : List Collab
deriving DecidableEq

/-- One `req.io.emit(...)` call: the change records broadcast to sessions. -/
inductive Event where
  | task_created (t : Task) (creatorId : Nat)
  | task_updated (t : Task) (byId : Nat)
  | task_deleted (tid : Nat) (byId : Nat)
  | collaborator_added (tid : Nat) (c : Collab) (byId : Nat)
  | collaborator_removed (tid : Nat) (userId : Nat) (byId : Nat)
deriving DecidableEq

/-- The distinct error responses the routes return. -/
inductive Err where
  | validationErrors
  | noValidFields
  | permissionDenied
  | notFound
  | alreadyExists
deriving DecidableEq

/-- The HTTP status code each error response carries in the source. -/
def Err.status : Err → Nat
  | .validationErrors => 400
  | .noValidFields => 400
  | .permissionDenied => 403
  | .notFound => 404
  | .alreadyExists => 400

/-- Equality of `Except` values is decidable when both components are. -/
def exceptDecEq {ε α : Type} [DecidableEq ε] [DecidableEq α] :
    (a b : Except ε α) → Decidable (a = b)
  | .error a, .error b =>
    if h : a = b then .isTrue (by rw [h])
    else .isFalse (by intro hh; injection hh; contradiction)
  | .error _, .ok _ => .isFalse (by intro hh; injection hh)
  | .ok _, .error _ => .isFalse (by intro hh; injection hh)
  | .ok a, .ok b =>
    if h : a = b then .isTrue (by rw [h])
    else .isFalse (by intro hh; injection hh; contradiction)

instance {ε α : Type} [DecidableEq ε] [DecidableEq α] : DecidableEq (Except ε α) :=
  exceptDecEq

/-- Outcome of one route handler call: the response, the store state after
the call, and the change records emitted during the call. -/
structure RouteResult (α : Type) where
  resp : Except Err α
  db : DB
  events : List Event
deriving DecidableEq

/-- An error response: the store is untouched and nothing is emitted. -/
def errResult {α : Type} (db : DB) (e : Err) : RouteResult α :=
  { resp := .error e, db := db, events := [] }

/-- The `.trim()` sanitizer: strip whitespace from both ends. -/
def trimStr (s : String) : String :=
  ⟨((s.data.dropWhile Char.isWhitespace).reverse.dropWhile Char.isWhitespace).reverse⟩

/-- Lower-casing as used by `ILIKE`'s case folding. -/
def lowerStr (s : String) : String :=
  ⟨s.data.map Char.toLower⟩

/-- `body('title').trim().isLength({ min: 1, max: 255 })`. -/
def validTitle (s : String) : Bool :=
  1 ≤ (trimStr s).length && (trimStr s).length ≤ 255

/-- Request body of `POST /` (create). Fields absent from the request are
`none`. `created_by` stands for a caller-supplied value of that name,
which the handler never reads. -/
structure CreateBody where
  title : String
  description : Option String
  status : Option String
  priority : Option String
  due_date : Option String
  created_by : Option Nat
deriving DecidableEq

/-- The create route's validator chain. -/
def createValid (pio : String → Option Nat) (b : CreateBody) : Bool :=
  validTitle b.title &&
  (match b.description with | none => true | some d => d.length ≤ 1000) &&
  (match b.status with | none => true | some s => (parseStatus s).isSome) &&
  (match b.priority with | none => true | some s => (parsePriority s).isSome) &&
  (match b.due_date with | none => true | some s => (pio s).isSome)

/-- The row the create route inserts.  Destructuring defaults:
`description = ''`, `status = 'pending'`, `priority = 'medium'`;
`due_date ? new Date(due_date) : null`; `created_by` is always
`req.user.id`, whatever the body carries. -/
def newTask (pio : String → Option Nat) (uid : Nat) (b : CreateBody)
    (freshId now : Nat) : Task :=
  { id := freshId
    title := trimStr b.title
    description := b.description.getD ""
    status := (b.status.bind parseStatus).getD .pending
    priority := (b.priority.bind parsePriority).getD .medium
    due_date := b.due_date.bind (fun s => if s == "" then none else pio s)
    created_by := uid
    created_at := now
    updated_at := now }

/-- `POST /` — create a task: validate, insert, emit `task_created`. -/
def createTask (pio : String → Option Nat) (db : DB) (uid : Nat) (b : CreateBody)
    (freshId now : Nat) : RouteResult Task :=
  if createValid pio b then
    { resp := .ok (newTask pio uid b freshId now)
      db := { db with tasks := db.tasks ++ [newTask pio uid b freshId now] }
      events := [.task_created (newTask pio uid b freshId now) uid] }
  else errResult db .validationErrors

/-- Request body of `PUT /:id` (update); every field optional. -/
structure UpdateBody where
  title : Option String
  description : Option String
  status : Option String
  priority : Option String
  due_date : Option String
deriving DecidableEq

/-- The update route's validator chain (all fields `.optional()`). -/
def updateValid (pio : String → Option Nat) (b : UpdateBody) : Bool :=
  (match b.title with | none => true | some s => validTitle s) &&
  (match b.description with | none => true | some d => d.length ≤ 1000) &&
  (match b.status with | none => true | some s => (parseStatus s).isSome) &&
  (match b.priority with | none => true | some s => (parsePriority s).isSome) &&
  (match b.due_date with | none => true | some s => (pio s).isSome)

/-- `Object.keys(req.body)` contains at least one updatable key. -/
def UpdateBody.hasField (b : UpdateBody) : Bool :=
  b.title.isSome || b.description.isSome || b.status.isSome ||
  b.priority.isSome || b.due_date.isSome

/-- The `SET` clause built by the update route: only present fields are
overwritten, `updated_at = NOW()` always. -/
def applyUpdates (pio : String → Option Nat) (t : Task) (b : UpdateBody) (now : Nat) : Task :=
  { t with
    title := (b.title.map trimStr).getD t.title
    description := b.description.getD t.description
    status := (b.status.bind parseStatus).getD t.status
    priority := (b.priority.bind parsePriority).getD t.priority
    due_date := match b.due_date with
      | none => t.due_date
      | some s => if s == "" then none else pio s
    updated_at := now }

/-- `tc.task_id = t.id AND tc.user_id = $2 ... tc.permission = 'write'`. -/
def hasWriteGrant (db : DB) (uid tid : Nat) : Bool :=
  db.collabs.any (fun c => c.task_id == tid && c.user_id == uid && c.permission == Perm.write)

/-- The update route's permission query: a row exists with
`t.id = $1 AND (t.created_by = $2 OR tc.permission = 'write')`. -/
def canWriteB (db : DB) (uid tid : Nat) : Bool :=
  db.tasks.any (fun t => t.id == tid && (t.created_by == uid || hasWriteGrant db uid tid))

/-- `SELECT * FROM tasks WHERE id = $1 AND created_by = $2` is non-empty. -/
def isOwner (db : DB) (uid tid : Nat) : Bool :=
  db.tasks.any (fun t => t.id == tid && t.created_by == uid)

/-- `PUT /:id` — update a task.  Validators run first, then the permission
query (which also filters out nonexistent ids), then the present-field
check.  The `none` branch of the final match is unreachable: the
permission query succeeded, so a row with this id exists. -/
def updateTask (pio : String → Option Nat) (db : DB) (uid tid : Nat) (b : UpdateBody)
    (now : Nat) : RouteResult Task :=
  if ¬ updateValid pio b then errResult db .validationErrors
  else if ¬ canWriteB db uid tid then errResult db .permissionDenied
  else if ¬ b.hasField then errResult db .noValidFields
  else
    match db.tasks.find? (fun t => t.id == tid) with
    | none => errResult db .permissionDenied
    | some t =>
      let t' := applyUpdates pio t b now
      { resp := .ok t'
        db := { db with tasks := db.tasks.map (fun u => if u.id == tid then applyUpdates pio u b now else u) }
        events := [.task_updated t' uid] }

/-- `DELETE /:id` — delete a task (owner only).  Note: the route deletes
only from `tasks`; collaborator rows are not touched here. -/
def deleteTask (db : DB) (uid tid : Nat) : RouteResult String :=
  if ¬ isOwner db uid tid then errResult db .permissionDenied
  else
    { resp := .ok "Task deleted successfully"
      db := { db with tasks := db.tasks.filter (fun t => t.id != tid) }
      events := [.task_deleted tid uid] }

/-- `SELECT * FROM profiles WHERE email = $1`, first row. -/
def findProfile (db : DB) (email : String) : Option Profile :=
  db.profiles.find? (fun p => p.email == email)

/-- The add-collaborator route's validator chain. -/
def addCollabValid (ie : String → Bool) (email perm : String) : Bool :=
  ie email && (parsePerm perm).isSome

/-- `POST /:id/collaborators` — grant a collaborator (owner only).
Resolves the email, rejects duplicates, otherwise inserts the grant.
No check compares the resolved profile against the task's owner. -/
def addCollaborator (ie : String → Bool) (db : DB) (uid tid : Nat)
    (email perm : String) (freshId : Nat) : RouteResult Collab :=
  if ¬ addCollabValid ie email perm then errResult db .validationErrors
  else if ¬ isOwner db uid tid then errResult db .permissionDenied
  else
    match findProfile db email with
    | none => errResult db .notFound
    | some p =>
      if db.collabs.any (fun c => c.task_id == tid && c.user_id == p.id) then
        errResult db .alreadyExists
      else
        let c : Collab := { id := freshId, task_id := tid, user_id := p.id,
                            permission := (parsePerm perm).getD .read }
        { resp := .ok c
          db := { db with collabs := db.collabs ++ [c] }
          events := [.collaborator_added tid c uid] }

/-- `DELETE /:id/collaborators/:userId` — remove a grant (owner only);
the SQL `DELETE` succeeds whether or not a row matches. -/
def removeCollaborator (db : DB) (uid tid target : Nat) : RouteResult String :=
  if ¬ isOwner db uid tid then errResult db .permissionDenied
  else
    { resp := .ok "Collaborator removed successfully"
      db := { db with collabs := db.collabs.filter (fun c => ¬ (c.task_id == tid && c.user_id == target)) }
      events := [.collaborator_removed tid target uid] }

/-- Case-insensitive containment: `column ILIKE '%' || q || '%'` for a
pattern built from a plain query string. -/
def containsCI (pat hay : String) : Bool :=
  decide ((lowerStr pat).toList <:+: (lowerStr hay).toList)

/-- `GET /search-users` — short queries return `[]`; otherwise profiles
matching email or name case-insensitively, excluding the requester,
`LIMIT 10`. -/
def searchUsers (db : DB) (uid : Nat) (q : String) : List Profile :=
  if q.length < 2 then []
  else (db.profiles.filter (fun p => (containsCI q p.email || containsCI q p.name) && p.id != uid)).take 10

/-- One element of the aggregated `collaborators` JSON array in the list
query. -/
structure CollabView where
  cid : Nat
  user_id : Nat
  permission : Perm
  user : Option Profile
deriving DecidableEq

/-- A row of the list query: the task, its creator profile (left join),
and the aggregated collaborator array (empty when no rows matched). -/
structure TaskView where
  task : Task
  creator : Option Profile
  collaborators : List CollabView
deriving DecidableEq

/-- `json_build_object(...)` for one collaborator row. -/
def collabView (db : DB) (c : Collab) : CollabView :=
  { cid := c.id, user_id := c.user_id, permission := c.permission,
    user := db.profiles.find? (fun p => p.id == c.user_id) }

/-- Shape one task row of the list query. -/
def taskView (db : DB) (t : Task) : TaskView :=
  { task := t
    creator := db.profiles.find? (fun p => p.id == t.created_by)
    collaborators := (db.collabs.filter (fun c => c.task_id == t.id)).map (collabView db) }

/-- The list query's `WHERE` clause: owned, or granted to the caller. -/
def visibleTo (db : DB) (uid : Nat) (t : Task) : Bool :=
  t.created_by == uid || db.collabs.any (fun c => c.task_id == t.id && c.user_id == uid)

/-- `ORDER BY created_at DESC` as a relation on task rows. -/
def createdDesc (a b : Task) : Prop :=
  b.created_at ≤ a.created_at

instance : DecidableRel createdDesc := fun a b => Nat.decLe b.created_at a.created_at

instance : IsTotal Task createdDesc :=
  ⟨fun a b => Nat.le_total b.created_at a.created_at⟩

instance : IsTrans Task createdDesc :=
  ⟨fun _ _ _ hab hbc => Nat.le_trans hbc hab⟩

/-- `GET /` — the visible tasks, ordered by `created_at DESC`, shaped. -/
def listTasks (db : DB) (uid : Nat) : List TaskView :=
  ((db.tasks.filter (visibleTo db uid)).insertionSort createdDesc).map (taskView db)

/-! ### Ownership invariant and the public-operation step relation -/

/-- The spec's invariant: no collaborator grant names the owner of the
task it grants access to. -/
def ownerNotCollab (db : DB) : Bool :=
  db.collabs.all (fun c =>
    db.tasks.all (fun t => c.task_id != t.id || c.user_id != t.created_by))

/-- The supplied email does not resolve to the owner of any task with
this id (the side condition under which `addCollaborator` preserves the
invariant). -/
def selfGrantFree (db : DB) (tid : Nat) (email : String) : Bool :=
  match findProfile db email with
  | none => true
  | some p => db.tasks.all (fun t => t.id != tid || p.id != t.created_by)

/-- A serial task id that no stored collaborator row references. -/
def freshTaskId (db : DB) (fid : Nat) : Bool :=
  db.collabs.all (fun c => c.task_id != fid)

/-- One public mutating operation of the API, as a transition between
store states.  Fresh-id and no-self-email side conditions are the
hypotheses under which the ownership invariant is preserved. -/
inductive Step : DB → DB → Prop where
  | create (pio : String → Option Nat) (db : DB) (uid : Nat) (b : CreateBody) (fid now : Nat)
      (hf : freshTaskId db fid = true) :
      Step db (createTask pio db uid b fid now).db
  | update (pio : String → Option Nat) (db : DB) (uid tid : Nat) (b : UpdateBody) (now : Nat) :
      Step db (updateTask pio db uid tid b now).db
  | remove (db : DB) (uid tid : Nat) :
      Step db (deleteTask db uid tid).db
  | addC (ie : String → Bool) (db : DB) (uid tid : Nat) (email perm : String) (cid : Nat)
      (hs : selfGrantFree db tid email = true) :
      Step db (addCollaborator ie db uid tid email perm cid).db
  | removeC (db : DB) (uid tid target : Nat) :
      Step db (removeCollaborator db uid tid target).db

/-! ### Client-side reconciler (`TaskContext.tsx`) -/

/-- A task as held in the client's local state: the server row plus the
optional projection fields the list endpoint adds. -/
structure CTask where
  id : Nat
  title : String
  description : String
  status : Status
  priority : Priority
  due_date : Option Nat
  created_by : Nat
  created_at : Nat
  updated_at : Nat
  creator_name : Option String
  creator_email : Option String
  creator_avatar : Option String
  collaborators : Option (List CollabView)
deriving DecidableEq

/-- The incoming `data.task` object of a `task_updated` record, as a
partial object: an outer `none` means the key is absent from the
object (and so survives the spread unchanged). -/
structure TaskPatch where
  id : Nat
  title : Option String
  description : Option String
  status : Option Status
  priority : Option Priority
  due_date : Option (Option Nat)
  created_by : Option Nat
  created_at : Option Nat
  updated_at : Option Nat
  creator_name : Option (Option String)
  creator_email : Option (Option String)
  creator_avatar : Option (Option String)
  collaborators : Option (Option (List CollabView))
deriving DecidableEq

/-- The `task_created` handler: `setTasks(prev => [data.task, ...prev])`. -/
def applyTaskCreated (t : CTask) (ts : List CTask) : List CTask :=
  t :: ts

/-- The spread `{ ...task, ...data.task }`: keys present in the incoming
object overwrite, absent keys keep the local value. -/
def mergePatch (t : CTask) (p : TaskPatch) : CTask :=
  { id := p.id
    title := p.title.getD t.title
    description := p.description.getD t.description
    status := p.status.getD t.status
    priority := p.priority.getD t.priority
    due_date := p.due_date.getD t.due_date
    created_by := p.created_by.getD t.created_by
    created_at := p.created_at.getD t.created_at
    updated_at := p.updated_at.getD t.updated_at
    creator_name := p.creator_name.getD t.creator_name
    creator_email := p.creator_email.getD t.creator_email
    creator_avatar := p.creator_avatar.getD t.creator_avatar
    collaborators := p.collaborators.getD t.collaborators }

/-- The `task_updated` handler:
`prev.map(task => task.id === data.task.id ? { ...task, ...data.task } : task)`. -/
def applyTaskUpdated (p : TaskPatch) (ts : List CTask) : List CTask :=
  ts.map (fun t => if t.id == p.id then mergePatch t p else t)


/-! ### Concrete fixtures used by counterexamples and witnesses -/

/-- A date parser that accepts nothing (the fixtures send no dates). -/
def pio0 : String → Option Nat := fun _ => none

/-- An email validator that accepts everything. -/
def ie0 : String → Bool := fun _ => true

/-- Profile of the task owner in the fixtures. -/
def prOwner : Profile := { id := 1, email := "o@x", name := "Owner", avatar_url := "" }

/-- Profile of a second registered user. -/
def prBob : Profile := { id := 2, email := "b@x", name := "Bob", avatar_url := "" }

/-- Initial store: two registered profiles, no tasks, no grants. -/
def db0 : DB := { profiles := [prOwner, prBob], tasks := [], collabs := [] }

/-- A minimal valid create request (status and priority omitted). -/
def cb0 : CreateBody :=
  { title := "T"
    description := none
    status := none
    priority := none
    due_date := none
    created_by := some 99 }

/-- Store after user 1 creates task 10 through the create route. -/
def db1 : DB := (createTask pio0 db0 1 cb0 10 0).db

/-- A valid single-field update request. -/
def ub0 : UpdateBody :=
  { title := some "U", description := none, status := none, priority := none, due_date := none }

/-- Store after the owner grants Bob read access on task 10. -/
def dbB : DB := (addCollaborator ie0 db1 1 10 "b@x" "read" 6).db

/-- Store after the owner instead grants Bob write access on task 10. -/
def dbW : DB := (addCollaborator ie0 db1 1 10 "b@x" "write" 6).db

/-- The row the create route stored as task 10. -/
def t10 : Task :=
  { id := 10
    title := "T"
    description := ""
    status := .pending
    priority := .medium
    due_date := none
    created_by := 1
    created_at := 0
    updated_at := 0 }

/-- A task as the reconciler fixtures hold it locally. -/
def ct0 : CTask :=
  { id := 7
    title := "A"
    description := ""
    status := .pending
    priority := .low
    due_date := none
    created_by := 1
    created_at := 0
    updated_at := 0
    creator_name := some "Owner"
    creator_email := none
    creator_avatar := none
    collaborators := some [] }

/-- An incoming update snapshot for task 7 carrying only core fields. -/
def tp0 : TaskPatch :=
  { id := 7
    title := some "B"
    description := some ""
    status := some .completed
    priority := some .low
    due_date := some none
    created_by := some 1
    created_at := some 0
    updated_at := some 3
    creator_name := none
    creator_email := none
    creator_avatar := none
    collaborators := none }

/-! ### Claims -/

/-- C9 (counterexample): re-applying a `task_created` record whose task id
is already present does not de-duplicate — the handler prepends
unconditionally, leaving two entries with id 7. -/
theorem taskCreated_echo_duplicates :
    (applyTaskCreated ct0 [ct0]).length = 2 ∧
    ¬ ((applyTaskCreated ct0 [ct0]).map CTask.id).Nodup := by
  decide

/-- C9 (amended): the `task_created` handler always prepends `data.task`,
whether or not a task with the same id is already in local state: the
number of entries carrying the incoming id always grows by one, so
re-applying an echoed record is not idempotent. -/
theorem taskCreated_always_prepends (t : CTask) (ts : List CTask) :
    (applyTaskCreated t ts).countP (fun u => u.id == t.id) =
      ts.countP (fun u => u.id == t.id) + 1 := by
  simp [applyTaskCreated, List.countP_cons]

/-- C10: the `task_updated` handler rewrites exactly the local tasks whose
id matches the incoming snapshot, leaving the rest untouched, and the
merge overwrites only the fields present in the snapshot: absent fields —
in particular `creator_name`, `creator_email`, `creator_avatar` and
`collaborators` — keep their local values. -/
theorem taskUpdated_frame (p : TaskPatch) (ts : List CTask) :
    List.Forall₂ (fun t u => u = if t.id == p.id then mergePatch t p else t)
      ts (applyTaskUpdated p ts) ∧
    ∀ t : CTask,
      (p.creator_name = none → (mergePatch t p).creator_name = t.creator_name) ∧
      (p.creator_email = none → (mergePatch t p).creator_email = t.creator_email) ∧
      (p.creator_avatar = none → (mergePatch t p).creator_avatar = t.creator_avatar) ∧
      (p.collaborators = none → (mergePatch t p).collaborators = t.collaborators) ∧
      (p.title = none → (mergePatch t p).title = t.title) ∧
      (p.description = none → (mergePatch t p).description = t.description) ∧
      (p.status = none → (mergePatch t p).status = t.status) ∧
      (p.priority = none → (mergePatch t p).priority = t.priority) ∧
      (p.due_date = none → (mergePatch t p).due_date = t.due_date) ∧
      (∀ s, p.title = some s → (mergePatch t p).title = s) ∧
      (∀ s, p.status = some s → (mergePatch t p).status = s) := by
  constructor
  · rw [applyTaskUpdated, List.forall₂_map_right_iff]
    exact List.forall₂_same.mpr (fun x _ => rfl)
  · intro t
    refine ⟨?_, ?_, ?_, ?_, ?_, ?_, ?_, ?_, ?_, ?_, ?_⟩ <;>
      first
        | (intro h; simp [mergePatch, h])
        | (intro s h; simp [mergePatch, h])

/-- C10 (witness): applying the fixture snapshot over the fixture local
task keeps the locally held `creator_name` and `collaborators`. -/
theorem taskUpdated_frame_w :
    (mergePatch ct0 tp0).creator_name = ct0.creator_name ∧
    (mergePatch ct0 tp0).collaborators = ct0.collaborators ∧
    (mergePatch ct0 tp0).title = "B" := by
  refine ⟨?_, ?_, ?_⟩
  · exact ((taskUpdated_frame tp0 [ct0]).2 ct0).1 rfl
  · exact ((taskUpdated_frame tp0 [ct0]).2 ct0).2.2.2.1 rfl
  · exact ((taskUpdated_frame tp0 [ct0]).2 ct0).2.2.2.2.2.2.2.2.2.1 "B" rfl

/-- C7: user search returns nothing for queries shorter than two
characters, and otherwise at most ten profiles, each matching the query
case-insensitively on email or name and never the requester. -/
theorem searchUsers_spec (db : DB) (uid : Nat) (q : String) :
    (q.length < 2 → searchUsers db uid q = []) ∧
    (searchUsers db uid q).length ≤ 10 ∧
    ∀ p ∈ searchUsers db uid q,
      (containsCI q p.email || containsCI q p.name) = true ∧ p.id ≠ uid := by
  refine ⟨fun h => by simp [searchUsers, h], ?_, ?_⟩
  · by_cases h : q.length < 2
    · simp [searchUsers, h]
    · rw [searchUsers, if_neg h]
      exact List.length_take_le 10
        (db.profiles.filter (fun p => (containsCI q p.email || containsCI q p.name) && p.id != uid))
  · intro p hp
    by_cases h : q.length < 2
    · rw [searchUsers, if_pos h] at hp
      simp at hp
    · rw [searchUsers, if_neg h] at hp
      have hm := List.mem_filter.mp (List.mem_of_mem_take hp)
      have h2 := hm.2
      simp only [Bool.and_eq_true, bne_iff_ne] at h2
      exact ⟨h2.1, h2.2⟩

/-- C7 (witness): in the fixture store, user 1 searching "b" (too short)
gets nothing, and searching "Ob" finds exactly Bob by case-insensitive
name match. -/
theorem searchUsers_spec_w :
    searchUsers db0 1 "b" = [] ∧
    (searchUsers db0 1 "Ob").length ≤ 10 ∧
    (searchUsers db0 1 "Ob").map Profile.id = [2] := by
  refine ⟨(searchUsers_spec db0 1 "b").1 (by decide), (searchUsers_spec db0 1 "Ob").2.1, by decide⟩

/-- C4: when the caller owns the task, the email resolves to a registered
profile, and a grant for that (task, principal) pair already exists,
`addCollaborator` fails with the duplicate-grant error and leaves the
store — in particular the existing grant's permission — untouched,
emitting nothing: there is no silent upgrade. -/
theorem addCollaborator_dup (ie : String → Bool) (db : DB) (uid tid : Nat)
    (email perm : String) (cid : Nat) (p : Profile)
    (hv : addCollabValid ie email perm = true)
    (how : isOwner db uid tid = true)
    (hp : findProfile db email = some p)
    (hex : db.collabs.any (fun c => c.task_id == tid && c.user_id == p.id) = true) :
    (addCollaborator ie db uid tid email perm cid).resp = .error .alreadyExists ∧
    (addCollaborator ie db uid tid email perm cid).db = db ∧
    (addCollaborator ie db uid tid email perm cid).events = [] := by
  rw [addCollaborator, if_neg (by simp [hv]), if_neg (by simp [how]), hp]
  simp [hex, errResult]

/-- C4 (witness): after the owner grants Bob `read` on task 10, granting
Bob again at `write` is rejected as a duplicate and the store keeps the
`read` grant. -/
theorem addCollaborator_dup_w :
    (addCollaborator ie0 dbB 1 10 "b@x" "write" 7).resp = .error .alreadyExists ∧
    (addCollaborator ie0 dbB 1 10 "b@x" "write" 7).db = dbB ∧
    (addCollaborator ie0 dbB 1 10 "b@x" "write" 7).events = [] :=
  addCollaborator_dup ie0 dbB 1 10 "b@x" "write" 7 prBob
    (by decide) (by decide) (by decide) (by decide)

/-- C2 (counterexample): in the fixture store no task has id 99, yet the
update route answers with the permission-denial response, not the
not-found response — the claim that a missing id yields `NotFound` fails
here. -/
theorem update_missing_answers_denied :
    db1.tasks.all (fun t => t.id != 99) = true ∧
    (updateTask pio0 db1 1 99 ub0 7).resp = .error .permissionDenied ∧
    (updateTask pio0 db1 1 99 ub0 7).resp ≠ .error .notFound := by
  decide

/-- C2 (amended): for every principal and every task id that references
no stored task, a well-formed update fails with `PermissionDenied` — the
permission query returns no row for a missing id, so missing tasks and
missing rights are indistinguishable to the caller — and the store is
unchanged with nothing emitted. -/
theorem updateTask_missing_denied (pio : String → Option Nat) (db : DB)
    (uid tid : Nat) (b : UpdateBody) (now : Nat)
    (hv : updateValid pio b = true)
    (hno : db.tasks.all (fun t => t.id != tid) = true) :
    (updateTask pio db uid tid b now).resp = .error .permissionDenied ∧
    (updateTask pio db uid tid b now).db = db ∧
    (updateTask pio db uid tid b now).events = [] := by
  have hcw : canWriteB db uid tid = false := by
    rw [canWriteB, List.any_eq_false]
    intro t ht
    have h1 := List.all_eq_true.mp hno t ht
    simp only [bne_iff_ne, ne_eq] at h1
    simp [h1]
  rw [updateTask, if_neg (by simp [hv]), if_pos (by simp [hcw])]
  simp [errResult]

/-- C2 (amended, witness): the amended statement at the fixture input. -/
theorem updateTask_missing_denied_w :
    (updateTask pio0 db1 1 99 ub0 7).resp = .error .permissionDenied ∧
    (updateTask pio0 db1 1 99 ub0 7).db = db1 ∧
    (updateTask pio0 db1 1 99 ub0 7).events = [] :=
  updateTask_missing_denied pio0 db1 1 99 ub0 7 (by decide) (by decide)

/-- C3 (counterexample): deleting task 10 twice as its owner yields
success and then the permission-denial response — not `NotFound` as the
claim states. -/
theorem delete_twice_not_notFound :
    isOwner db1 1 10 = true ∧
    (deleteTask db1 1 10).resp = .ok "Task deleted successfully" ∧
    (deleteTask (deleteTask db1 1 10).db 1 10).resp = .error .permissionDenied ∧
    (deleteTask (deleteTask db1 1 10).db 1 10).resp ≠ .error .notFound := by
  decide

/-- C3 (amended): for every owner, deleting a task twice in succession
yields success then `PermissionDenied` (the vanished row makes the
ownership check fail, which the route reports as a permission error),
while removing the same collaborator twice yields success both times —
the second removal is a silent no-op. -/
theorem delete_not_idempotent_removeCollab_idempotent (db : DB) (uid tid target : Nat)
    (how : isOwner db uid tid = true) :
    ((deleteTask db uid tid).resp = .ok "Task deleted successfully" ∧
     (deleteTask (deleteTask db uid tid).db uid tid).resp = .error .permissionDenied) ∧
    ((removeCollaborator db uid tid target).resp = .ok "Collaborator removed successfully" ∧
     (removeCollaborator (removeCollaborator db uid tid target).db uid tid target).resp =
       .ok "Collaborator removed successfully") := by
  have hdb : (deleteTask db uid tid).db =
      { db with tasks := db.tasks.filter (fun t => t.id != tid) } := by
    rw [deleteTask, if_neg (by simp [how])]
  have hgone : isOwner { db with tasks := db.tasks.filter (fun t => t.id != tid) } uid tid = false := by
    rw [isOwner, List.any_eq_false]
    intro t ht
    have h1 := (List.mem_filter.mp ht).2
    simp only [bne_iff_ne, ne_eq] at h1
    simp [h1]
  have hrdb : (removeCollaborator db uid tid target).db =
      { db with collabs := db.collabs.filter (fun c => ¬ (c.task_id == tid && c.user_id == target)) } := by
    rw [removeCollaborator, if_neg (by simp [how])]
  have how2 : isOwner (removeCollaborator db uid tid target).db uid tid = true := by
    rw [hrdb]; exact how
  refine ⟨⟨?_, ?_⟩, ?_, ?_⟩
  · rw [deleteTask, if_neg (by simp [how])]
  · rw [hdb, deleteTask, if_pos (by simp [hgone])]; rfl
  · rw [removeCollaborator, if_neg (by simp [how])]
  · rw [removeCollaborator, if_neg (by simp [how2])]

/-- C3 (amended, witness): the amended statement at the fixture input. -/
theorem delete_remove_twice_w :
    ((deleteTask db1 1 10).resp = .ok "Task deleted successfully" ∧
     (deleteTask (deleteTask db1 1 10).db 1 10).resp = .error .permissionDenied) ∧
    ((removeCollaborator db1 1 10 2).resp = .ok "Collaborator removed successfully" ∧
     (removeCollaborator (removeCollaborator db1 1 10 2).db 1 10 2).resp =
       .ok "Collaborator removed successfully") :=
  delete_not_idempotent_removeCollab_idempotent db1 1 10 2 (by decide)

/-- Any task stored and visible to the caller appears among the list
route's returned views (shared helper for the list and round-trip
claims). -/
theorem mem_listTasks_of (db : DB) (uid : Nat) (t : Task)
    (ht : t ∈ db.tasks) (hvis : visibleTo db uid t = true) :
    ∃ v ∈ listTasks db uid, v.task = t := by
  refine ⟨taskView db t, ?_, rfl⟩
  rw [listTasks]
  exact List.mem_map_of_mem _
    ((List.mem_insertionSort (r := createdDesc)).mpr (List.mem_filter.mpr ⟨ht, hvis⟩))

/-- C5: an update on an existing task by a principal who is neither the
owner nor a write collaborator is rejected with `PermissionDenied`,
leaving the store unchanged and emitting nothing; an update by the owner
or a write collaborator succeeds and emits exactly one `task_updated`
record. -/
theorem updateTask_authz (pio : String → Option Nat) (db : DB) (uid tid : Nat)
    (b : UpdateBody) (now : Nat)
    (hv : updateValid pio b = true) (hf : b.hasField = true)
    (_he : db.tasks.any (fun t => t.id == tid) = true) :
    ((∀ t ∈ db.tasks, t.id = tid → t.created_by ≠ uid) →
      hasWriteGrant db uid tid = false →
      (updateTask pio db uid tid b now).resp = .error .permissionDenied ∧
      (updateTask pio db uid tid b now).db = db ∧
      (updateTask pio db uid tid b now).events = []) ∧
    ((∃ t ∈ db.tasks, t.id = tid ∧ (t.created_by = uid ∨ hasWriteGrant db uid tid = true)) →
      ∃ u, (updateTask pio db uid tid b now).resp = .ok u ∧
        (updateTask pio db uid tid b now).events = [.task_updated u uid]) := by
  constructor
  · intro hown hw
    have hcw : canWriteB db uid tid = false := by
      rw [canWriteB, List.any_eq_false]
      intro t ht
      simp only [Bool.and_eq_true, Bool.or_eq_true, beq_iff_eq, not_and]
      intro hid
      have h1 : t.created_by ≠ uid := hown t ht hid
      simp [hw, h1]
    rw [updateTask, if_neg (by simp [hv]), if_pos (by simp [hcw])]
    exact ⟨rfl, rfl, rfl⟩
  · rintro ⟨t, ht, hid, hok⟩
    have hcw : canWriteB db uid tid = true := by
      rw [canWriteB, List.any_eq_true]
      refine ⟨t, ht, ?_⟩
      rcases hok with hc | hgr
      · simp [hid, hc]
      · simp [hid, hgr]
    rw [updateTask, if_neg (by simp [hv]), if_neg (by simp [hcw]), if_neg (by simp [hf])]
    cases hfind : db.tasks.find? (fun u => u.id == tid) with
    | none =>
      exfalso
      have hnone := List.find?_eq_none.mp hfind t ht
      simp [hid] at hnone
    | some t0 =>
      exact ⟨applyUpdates pio t0 b now, rfl, rfl⟩

/-- C5 (witness): user 3 (no grant) is denied on task 10 in the fixture
store with Bob as read collaborator; Bob succeeds with one `task_updated`
record once he holds a write grant. -/
theorem updateTask_authz_w :
    (updateTask pio0 dbB 3 10 ub0 7).resp = .error .permissionDenied ∧
    (∃ u, (updateTask pio0 dbW 2 10 ub0 7).resp = .ok u ∧
      (updateTask pio0 dbW 2 10 ub0 7).events = [.task_updated u 2]) := by
  constructor
  · exact ((updateTask_authz pio0 dbB 3 10 ub0 7 (by decide) (by decide) (by decide)).1
      (by decide) (by decide)).1
  · exact (updateTask_authz pio0 dbW 2 10 ub0 7 (by decide) (by decide) (by decide)).2
      (by decide)

/-- C6: the list route returns a view for exactly the tasks owned by the
caller or granted to the caller; the views are ordered by `created_at`
descending; and a task with no collaborator rows carries the empty array
(never a null sentinel) as its collaborator projection. -/
theorem listTasks_spec (db : DB) (uid : Nat) :
    (∀ t : Task, (∃ v ∈ listTasks db uid, v.task = t) ↔
        (t ∈ db.tasks ∧ visibleTo db uid t = true)) ∧
    (listTasks db uid).Pairwise (fun a b => b.task.created_at ≤ a.task.created_at) ∧
    (∀ v ∈ listTasks db uid,
      db.collabs.all (fun c => c.task_id != v.task.id) = true → v.collaborators = []) := by
  refine ⟨?_, ?_, ?_⟩
  · intro t
    constructor
    · rintro ⟨v, hv, hvt⟩
      rw [listTasks] at hv
      obtain ⟨t0, ht0, hveq⟩ := List.mem_map.mp hv
      have hmem : t0 ∈ db.tasks.filter (visibleTo db uid) :=
        (List.mem_insertionSort (r := createdDesc)).mp ht0
      have h2 := List.mem_filter.mp hmem
      have ht0t : t0 = t := by
        rw [← hveq] at hvt
        simpa [taskView] using hvt
      exact ht0t ▸ h2
    · rintro ⟨ht, hvis⟩
      exact mem_listTasks_of db uid t ht hvis
  · rw [listTasks]
    exact (List.sorted_insertionSort createdDesc _).map _ (fun a b hab => hab)
  · intro v hv hall
    rw [listTasks] at hv
    obtain ⟨t0, ht0, hveq⟩ := List.mem_map.mp hv
    rw [← hveq] at hall ⊢
    simp only [taskView] at hall ⊢
    have hnil : db.collabs.filter (fun c => c.task_id == t0.id) = [] := by
      rw [List.filter_eq_nil_iff]
      intro c hc
      have h1 := List.all_eq_true.mp hall c hc
      simpa using h1
    rw [hnil]
    rfl

/-- C6 (witness): Bob, as collaborator, sees task 10 in his list; and in
the store before any grant exists, the view of task 10 carries the empty
collaborator array. -/
theorem listTasks_spec_w :
    (∃ v ∈ listTasks dbB 2, v.task = t10) ∧
    (∀ v ∈ listTasks db1 1,
      db1.collabs.all (fun c => c.task_id != v.task.id) = true → v.collaborators = []) :=
  ⟨((listTasks_spec dbB 2).1 t10).mpr (by decide), (listTasks_spec db1 1).2.2⟩

/-- C8: a create call with a valid body always stores `created_by` as the
calling principal (whatever `created_by` value the body carries), defaults
`status` to `pending` and `priority` to `medium` exactly when those fields
are omitted, keeps supplied fields intact, and the created task is
returned by an immediately following `list` for the creator; a create
call with an invalid body fails with the validation error and stores and
emits nothing. -/
theorem createTask_spec (pio : String → Option Nat) (db : DB) (uid : Nat)
    (b : CreateBody) (freshId now : Nat) :
    (createValid pio b = false →
      (createTask pio db uid b freshId now).resp = .error .validationErrors ∧
      (createTask pio db uid b freshId now).db = db ∧
      (createTask pio db uid b freshId now).events = []) ∧
    (createValid pio b = true →
      ∃ t, (createTask pio db uid b freshId now).resp = .ok t ∧
        t.created_by = uid ∧
        (b.status = none → t.status = .pending) ∧
        (b.priority = none → t.priority = .medium) ∧
        (∀ s st, b.status = some s → parseStatus s = some st → t.status = st) ∧
        (∀ s pr, b.priority = some s → parsePriority s = some pr → t.priority = pr) ∧
        t.title = trimStr b.title ∧
        t.description = b.description.getD "" ∧
        ∃ v ∈ listTasks (createTask pio db uid b freshId now).db uid, v.task = t) := by
  constructor
  · intro h
    rw [createTask, if_neg (by simp [h])]
    exact ⟨rfl, rfl, rfl⟩
  · intro h
    have hrw : createTask pio db uid b freshId now =
        { resp := .ok (newTask pio uid b freshId now)
          db := { db with tasks := db.tasks ++ [newTask pio uid b freshId now] }
          events := [.task_created (newTask pio uid b freshId now) uid] } := by
      rw [createTask, if_pos (by simp [h])]
    refine ⟨newTask pio uid b freshId now, by rw [hrw], rfl, ?_, ?_, ?_, ?_, rfl, rfl, ?_⟩
    · intro hs; simp [newTask, hs]
    · intro hp; simp [newTask, hp]
    · intro s st hs hst; simp [newTask, hs, hst]
    · intro s pr hs hpr; simp [newTask, hs, hpr]
    · rw [hrw]
      refine mem_listTasks_of _ uid _ ?_ ?_
      · exact List.mem_append_right _ (List.mem_singleton.mpr rfl)
      · simp [visibleTo, newTask]

/-- C8 (witness): the fixture create call stores the defaults, forces the
creator over the body's `created_by := some 99`, and the task shows up in
the creator's immediate list. -/
theorem createTask_spec_w :
    createValid pio0 cb0 = true ∧
    ∃ t, (createTask pio0 db0 1 cb0 10 0).resp = .ok t ∧ t.created_by = 1 ∧
      (cb0.status = none → t.status = .pending) ∧
      (cb0.priority = none → t.priority = .medium) ∧
      ∃ v ∈ listTasks (createTask pio0 db0 1 cb0 10 0).db 1, v.task = t := by
  refine ⟨by decide, ?_⟩
  obtain ⟨t, h1, h2, h3, h4, _, _, _, _, h9⟩ :=
    (createTask_spec pio0 db0 1 cb0 10 0).2 (by decide)
  exact ⟨t, h1, h2, h3, h4, h9⟩

/-- The ownership invariant, in propositional form. -/
theorem ownerNotCollab_iff (db : DB) :
    ownerNotCollab db = true ↔
      ∀ c ∈ db.collabs, ∀ t ∈ db.tasks, c.task_id = t.id → c.user_id ≠ t.created_by := by
  rw [ownerNotCollab, List.all_eq_true]
  refine forall₂_congr (fun c _ => ?_)
  rw [List.all_eq_true]
  refine forall₂_congr (fun t _ => ?_)
  simp [Bool.or_eq_true, bne_iff_ne, or_iff_not_imp_left]

/-- Every step of the (side-conditioned) step relation preserves the
ownership invariant. -/
theorem step_preserves_ownerNotCollab {db db2 : DB} (h : Step db db2)
    (hI : ownerNotCollab db = true) : ownerNotCollab db2 = true := by
  cases h with
  | create pio dbx uid b fid now hf =>
    rw [createTask]
    split
    · rw [ownerNotCollab_iff] at hI ⊢
      intro c hc t ht hid
      dsimp only at hc ht
      rcases List.mem_append.mp ht with h1 | h1
      · exact hI c hc t h1 hid
      · rw [List.mem_singleton] at h1
        subst h1
        have h2 := List.all_eq_true.mp hf c hc
        simp only [bne_iff_ne, ne_eq] at h2
        exact absurd hid h2
    · exact hI
  | update pio dbx uid tid b now =>
    rw [updateTask]
    split
    · exact hI
    split
    · exact hI
    split
    · exact hI
    split
    · exact hI
    rw [ownerNotCollab_iff] at hI ⊢
    intro c hc t ht hid
    dsimp only at hc ht
    obtain ⟨t1, ht1, hteq⟩ := List.mem_map.mp ht
    subst hteq
    by_cases hb : (t1.id == tid) = true
    · rw [if_pos hb] at hid ⊢
      exact hI c hc t1 ht1 hid
    · rw [if_neg hb] at hid ⊢
      exact hI c hc t1 ht1 hid
  | remove dbx uid tid =>
    rw [deleteTask]
    split
    · exact hI
    · rw [ownerNotCollab_iff] at hI ⊢
      intro c hc t ht hid
      dsimp only at hc ht
      exact hI c hc t (List.mem_of_mem_filter ht) hid
  | addC ie dbx uid tid email perm cid hs =>
    rw [addCollaborator]
    split
    · exact hI
    split
    · exact hI
    split
    · exact hI
    rename_i p hp
    split
    · exact hI
    rw [ownerNotCollab_iff] at hI ⊢
    intro c hc t ht hid
    dsimp only at hc ht
    rcases List.mem_append.mp hc with h1 | h1
    · exact hI c h1 t ht hid
    · rw [List.mem_singleton] at h1
      subst h1
      have hsf := hs
      rw [selfGrantFree, hp] at hsf
      have h2 := List.all_eq_true.mp hsf t ht
      simp only [Bool.or_eq_true, bne_iff_ne, ne_eq] at h2
      rcases h2 with h3 | h3
      · exact absurd hid.symm h3
      · exact h3
  | removeC dbx uid tid target =>
    rw [removeCollaborator]
    split
    · exact hI
    · rw [ownerNotCollab_iff] at hI ⊢
      intro c hc t ht hid
      dsimp only at hc ht
      exact hI c (List.mem_of_mem_filter hc) t ht hid

/-- C1 (counterexample): in the fixture store — itself produced by the
create route and satisfying the invariant — the owner of task 10 calls
`addCollaborator` with the owner's own email; the call succeeds and
inserts a grant whose principal equals the task's `created_by`, so the
claimed invariant is violated by a public-operation sequence. -/
theorem owner_self_grant_possible :
    ownerNotCollab db1 = true ∧
    (addCollaborator ie0 db1 1 10 "o@x" "write" 5).resp =
      .ok { id := 5, task_id := 10, user_id := 1, permission := .write } ∧
    ownerNotCollab (addCollaborator ie0 db1 1 10 "o@x" "write" 5).db = false := by
  decide

/-- C1 (amended): the ownership invariant is preserved by every sequence
of public operations in which `addCollaborator` is never called with an
email resolving to the owner of the targeted task (and created task ids
are fresh); the route itself performs no such self-grant check, so the
unrestricted claim fails. -/
theorem ownerNotCollab_preserved (db db2 : DB)
    (h0 : ownerNotCollab db = true)
    (hsteps : Relation.ReflTransGen Step db db2) :
    ownerNotCollab db2 = true := by
  induction hsteps with
  | refl => exact h0
  | tail _hs hstep ih => exact step_preserves_ownerNotCollab hstep ih

/-- C1 (amended, witness): granting Bob write access on task 10 is a step
whose email does not resolve to the owner, and the invariant indeed still
holds afterwards. -/
theorem ownerNotCollab_preserved_w :
    ownerNotCollab dbW = true :=
  ownerNotCollab_preserved db1 dbW (by decide)
    (Relation.ReflTransGen.single (Step.addC ie0 db1 1 10 "b@x" "write" 6 (by decide)))

end TaskFlow
